import Mathlib

/-!
# Verification of the McAtlas geodetic synchronization engine

Shallow embedding of the core of the McAtlas repository:

* `TileMath` — slippy-map tile index math from
  `src/tauri-app/src/world/map-export.js` (`latLonToTile`, `tileToLatLon`,
  `metersPerPixel`, `calculateTileBounds`), modelled over `ℝ` with JavaScript
  doubles read as exact real arithmetic and `Math.floor`/`Math.ceil` as
  `Int.floor`/`Int.ceil`.
* `TileStitcher` — `fetchAndStitchTiles` from the later revision of the same
  module (canvas compositing over an integer tile range).
* the viewer-side sync (`addModelFromRhino`, `applyClippingPolygons`,
  `removeClipping` from `src/tauri-app/src/world/cesium-geometry.js`) as an
  explicit state-transition function.
* the Rhino-side export (`GetGeometryJsonInternal`,
  `GetClippingPolygonsJson` from `src/rhino-plugin/httpServer.cs`) as a
  function from an abstract document state to either an error message or a
  wire payload.

Theorems `c1` … `c10` below settle the frozen claims about this code.
-/

namespace McAtlas

open Real

/-! ## TileMath — src/tauri-app/src/world/map-export.js -/

noncomputable section

/-- `metersPerPixel(lat, zoom)` from map-export.js:
`156543.03392 * Math.cos(lat * Math.PI / 180) / Math.pow(2, zoom)`. -/
def metersPerPixel (lat : ℝ) (zoom : ℕ) : ℝ :=
  156543.03392 * Real.cos (lat * π / 180) / 2 ^ zoom

/-- The real-valued y-tile coordinate computed inside `latLonToTile`:
`(1 - Math.log(Math.tan(latRad) + 1 / Math.cos(latRad)) / Math.PI) / 2 * n`. -/
def mercY (lat : ℝ) (zoom : ℕ) : ℝ :=
  (1 - Real.log (Real.tan (lat * π / 180) + 1 / Real.cos (lat * π / 180)) / π) / 2 * 2 ^ zoom

/-- `latLonToTile(lat, lon, zoom)` from map-export.js; the pair is `(x, y)`. -/
def latLonToTile (lat lon : ℝ) (zoom : ℕ) : ℤ × ℤ :=
  (⌊(lon + 180) / 360 * 2 ^ zoom⌋, ⌊mercY lat zoom⌋)

/-- The latitude formula of `tileToLatLon`, taken at a real argument
(the source only calls it at integers; the real version is used to state
the inverse lemmas): `atan(sinh(π * (1 - 2 * y / n))) * 180 / π`. -/
def tileToLatR (y : ℝ) (zoom : ℕ) : ℝ :=
  Real.arctan (Real.sinh (π * (1 - 2 * y / 2 ^ zoom))) * 180 / π

/-- `tileToLatLon(x, y, zoom)` from map-export.js; the pair is `(lat, lon)`
(top-left corner of the tile). -/
def tileToLatLon (x y : ℤ) (zoom : ℕ) : ℝ × ℝ :=
  (tileToLatR (y : ℝ) zoom, (x : ℝ) / 2 ^ zoom * 360 - 180)

/-- `tilesNeeded = Math.ceil(pixelsNeeded / TILE_SIZE)` where
`pixelsNeeded = sizeMeters / mpp` (from `calculateTileBounds`). -/
def tilesNeeded (lat size : ℝ) (zoom : ℕ) : ℤ :=
  ⌈size / metersPerPixel lat zoom / 256⌉

/-- `halfTiles = Math.floor(tilesNeeded / 2)` (from `calculateTileBounds`). -/
def halfTiles (lat size : ℝ) (zoom : ℕ) : ℤ :=
  ⌊(tilesNeeded lat size zoom : ℝ) / 2⌋

/-- The record returned by `calculateTileBounds`. -/
structure TileBounds where
  zoom : ℕ
  startX : ℤ
  startY : ℤ
  endX : ℤ
  endY : ℤ
  tilesX : ℤ
  tilesY : ℤ
  totalTiles : ℤ
  pixelWidth : ℤ
  pixelHeight : ℤ
  north : ℝ
  south : ℝ
  west : ℝ
  east : ℝ
  metersPerPixel : ℝ
  actualSizeMeters : ℝ

/-- `calculateTileBounds(centerLat, centerLon, sizeMeters, zoom)` from
map-export.js, field by field. -/
def calculateTileBounds (centerLat centerLon sizeMeters : ℝ) (zoom : ℕ) : TileBounds where
  zoom := zoom
  startX := (latLonToTile centerLat centerLon zoom).1 - halfTiles centerLat sizeMeters zoom
  startY := (latLonToTile centerLat centerLon zoom).2 - halfTiles centerLat sizeMeters zoom
  endX := (latLonToTile centerLat centerLon zoom).1 + halfTiles centerLat sizeMeters zoom
  endY := (latLonToTile centerLat centerLon zoom).2 + halfTiles centerLat sizeMeters zoom
  tilesX :=
    ((latLonToTile centerLat centerLon zoom).1 + halfTiles centerLat sizeMeters zoom) -
      ((latLonToTile centerLat centerLon zoom).1 - halfTiles centerLat sizeMeters zoom) + 1
  tilesY :=
    ((latLonToTile centerLat centerLon zoom).2 + halfTiles centerLat sizeMeters zoom) -
      ((latLonToTile centerLat centerLon zoom).2 - halfTiles centerLat sizeMeters zoom) + 1
  totalTiles :=
    (((latLonToTile centerLat centerLon zoom).1 + halfTiles centerLat sizeMeters zoom) -
        ((latLonToTile centerLat centerLon zoom).1 - halfTiles centerLat sizeMeters zoom) + 1) *
      (((latLonToTile centerLat centerLon zoom).2 + halfTiles centerLat sizeMeters zoom) -
        ((latLonToTile centerLat centerLon zoom).2 - halfTiles centerLat sizeMeters zoom) + 1)
  pixelWidth :=
    (((latLonToTile centerLat centerLon zoom).1 + halfTiles centerLat sizeMeters zoom) -
        ((latLonToTile centerLat centerLon zoom).1 - halfTiles centerLat sizeMeters zoom) + 1) * 256
  pixelHeight :=
    (((latLonToTile centerLat centerLon zoom).2 + halfTiles centerLat sizeMeters zoom) -
        ((latLonToTile centerLat centerLon zoom).2 - halfTiles centerLat sizeMeters zoom) + 1) * 256
  north :=
    (tileToLatLon ((latLonToTile centerLat centerLon zoom).1 - halfTiles centerLat sizeMeters zoom)
      ((latLonToTile centerLat centerLon zoom).2 - halfTiles centerLat sizeMeters zoom) zoom).1
  south :=
    (tileToLatLon ((latLonToTile centerLat centerLon zoom).1 + halfTiles centerLat sizeMeters zoom + 1)
      ((latLonToTile centerLat centerLon zoom).2 + halfTiles centerLat sizeMeters zoom + 1) zoom).1
  west :=
    (tileToLatLon ((latLonToTile centerLat centerLon zoom).1 - halfTiles centerLat sizeMeters zoom)
      ((latLonToTile centerLat centerLon zoom).2 - halfTiles centerLat sizeMeters zoom) zoom).2
  east :=
    (tileToLatLon ((latLonToTile centerLat centerLon zoom).1 + halfTiles centerLat sizeMeters zoom + 1)
      ((latLonToTile centerLat centerLon zoom).2 + halfTiles centerLat sizeMeters zoom + 1) zoom).2
  metersPerPixel := metersPerPixel centerLat zoom
  actualSizeMeters :=
    (((((latLonToTile centerLat centerLon zoom).1 + halfTiles centerLat sizeMeters zoom) -
        ((latLonToTile centerLat centerLon zoom).1 - halfTiles centerLat sizeMeters zoom) + 1 : ℤ) : ℝ)) *
      256 * metersPerPixel centerLat zoom

end

/-! ## TileStitcher — fetchAndStitchTiles (src/unnamed/part_002) -/

/-- One `ctx.drawImage(image, canvasX, canvasY, 256, 256)` call recorded on
the output canvas; images are abstract rasters identified by a natural. -/
structure DrawCall where
  image : ℕ
  canvasX : ℤ
  canvasY : ℤ
deriving DecidableEq

/-- The output canvas: its dimensions and the draw calls made on it.
A region with no draw call is blank. -/
structure Canvas where
  width : ℤ
  height : ℤ
  drawn : List DrawCall
deriving DecidableEq

/-- `imageryProvider.requestImage(x, y, zoom)`: `.error` models a rejected
promise (per-tile throw), `.ok none` a resolved request with no image, and
`.ok (some img)` a usable raster. -/
abbrev ImageryProvider := ℤ → ℤ → ℕ → Except String (Option ℕ)

/-- Whether an `Except` value is the error (throwing) case. -/
def exceptIsError {ε α : Type _} : Except ε α → Bool
  | .error _ => true
  | .ok _ => false

/-- The ascending inclusive integer range `[lo..hi]`
(the `for (let v = lo; v <= hi; v++)` iteration order). -/
def intRange (lo hi : ℤ) : List ℤ :=
  (List.range (hi + 1 - lo).toNat).map (fun (i : ℕ) => lo + (i : ℤ))

/-- `fetchAndStitchTiles(viewer, tileBounds)` from part_002: throws iff the
globe has no imagery layers; otherwise iterates `y` then `x` over the tile
range, drawing each successfully fetched tile at
`((x - startX) * 256, (y - startY) * 256)` and silently skipping tiles whose
fetch throws or returns no image. `imagery = none` models a missing
globe / missing `imageryLayers`; `some []` an empty layer collection. -/
def fetchAndStitchTiles (imagery : Option (List ImageryProvider)) (tb : TileBounds) :
    Except String Canvas :=
  match imagery with
  | none => .error "No imagery layers available"
  | some [] => .error "No imagery layers available"
  | some (provider :: _) =>
    .ok
      { width := tb.pixelWidth
        height := tb.pixelHeight
        drawn :=
          (intRange tb.startY tb.endY).flatMap (fun y =>
            (intRange tb.startX tb.endX).filterMap (fun x =>
              match provider x y tb.zoom with
              | .ok (some img) =>
                some ⟨img, (x - tb.startX) * 256, (y - tb.startY) * 256⟩
              | _ => none)) }

/-! ## Viewer-side sync — src/tauri-app/src/world/cesium-geometry.js

Positions and heights are rationals (doubles read as exact arithmetic);
entities carry a fresh numeric id to model JavaScript reference identity. -/

/-- A Cesium entity created by `viewer.entities.add`. -/
structure EntityRec where
  id : ℕ
  lat : ℚ
  lon : ℚ
  height : ℚ
  heading : ℚ
deriving DecidableEq

/-- The viewer: its entity collection and its (optional) globe with the
globe's clipping-polygon collection. -/
structure ViewerState where
  entities : List EntityRec
  hasGlobe : Bool
  globeClipping : Option (List (List ℚ))
deriving DecidableEq

/-- Full state touched by cesium-geometry.js: the viewer, the 3D tileset
(presence and clipping collection) and the module-level mutable variables
`currentModel` / `currentClippingPolygons`, plus a fresh-id counter. -/
structure GeomState where
  viewer : ViewerState
  tilesetPresent : Bool
  tilesetClipping : Option (List (List ℚ))
  currentModel : Option EntityRec
  currentClipping : Option (List (List ℚ))
  nextId : ℕ
deriving DecidableEq

/-- The sync payload received from Rhino (wire shape of section 6 of the
spec); `error` models a payload carrying an error field and each clipping
polygon is a flat `[lon, lat, lon, lat, ...]` list. -/
structure SyncPayload where
  error : Option String
  glbPath : Option String
  lat : ℚ
  lon : ℚ
  height : ℚ
  clippingPolygons : Option (List (List ℚ))
deriving DecidableEq

instance instDecEqExcept {ε α : Type _} [DecidableEq ε] [DecidableEq α] :
    DecidableEq (Except ε α) := fun a b =>
  match a, b with
  | Except.error e, Except.error f => decidable_of_iff (e = f) (by simp)
  | Except.ok x, Except.ok y => decidable_of_iff (x = y) (by simp)
  | Except.error _, Except.ok _ => isFalse (fun hc => Except.noConfusion hc)
  | Except.ok _, Except.error _ => isFalse (fun hc => Except.noConfusion hc)

/-- The effectful context of one `addModelFromRhino` run: the GLB file read
(`.error` = `readFile` throws, `.ok n` = `n` bytes read) and the 2D globe's
terrain sample (`none` = globe or terrain provider unavailable,
`some (.error e)` = `sampleTerrainMostDetailed` throws, `some (.ok none)` =
sampled position has no height (`positions[0].height` undefined),
`some (.ok (some h))` = sampled terrain height `h`). -/
structure SyncEnv where
  glbRead : Except String ℕ
  terrain : Option (Except String (Option ℚ))
deriving DecidableEq

/-- Whether one sync run ended in the success path or in one of the
error/alert paths. -/
inductive SyncOutcome where
  | success
  | fatal
deriving DecidableEq

/-- The terrain height used by `addModelFromRhino`: the sampled height when
the 2D globe, its terrain provider and the sample all succeed
(`positions[0].height || 0`), and `0` in every failure case. -/
def terrainHeight (env : SyncEnv) : ℚ :=
  match env.terrain with
  | some (Except.ok (some h)) => h
  | _ => 0

/-- Whether Cesium accepts a flat `[lon, lat, ...]` polygon:
`Cartesian3.fromDegreesArray` requires an even number of coordinates and
`ClippingPolygon` requires at least 3 positions; otherwise the construction
throws and the source skips that polygon. -/
def cesiumAccepts (p : List ℚ) : Bool :=
  decide (p.length % 2 = 0 ∧ 6 ≤ p.length)

/-- `applyClippingPolygons(viewer, tileset, polygons)`: clears any existing
clipping first, then applies the collection of constructible polygons to the
tileset and (when present) the globe; called only with a non-null tileset. -/
def applyClippingPolygonsFn (st : GeomState) (polys : List (List ℚ)) : GeomState :=
  let st1 :=
    if st.currentClipping.isSome then
      { st with
        tilesetClipping := none
        viewer := { st.viewer with
          globeClipping := if st.viewer.hasGlobe then none else st.viewer.globeClipping } }
    else st
  let good := polys.filter cesiumAccepts
  if good.isEmpty then st1
  else
    { st1 with
      tilesetClipping := some good
      viewer := { st1.viewer with
        globeClipping := if st1.viewer.hasGlobe then some good else st1.viewer.globeClipping }
      currentClipping := some good }

/-- `removeClipping(viewer, tileset)`: when clipping is active, clears the
tileset's and the globe's clipping collections (each only when present) and
resets `currentClippingPolygons`. -/
def removeClippingFn (st : GeomState) : GeomState :=
  if st.currentClipping.isSome then
    { st with
      tilesetClipping := if st.tilesetPresent then none else st.tilesetClipping
      viewer := { st.viewer with
        globeClipping := if st.viewer.hasGlobe then none else st.viewer.globeClipping }
      currentClipping := none }
  else st

/-- Step 1 of `addModelFromRhino`: `if (currentModel)
viewer.entities.remove(currentModel)` — runs before any error check. -/
def removeOldModel (st : GeomState) : GeomState :=
  match st.currentModel with
  | some m =>
    { st with viewer := { st.viewer with
        entities := st.viewer.entities.eraseP (fun e => e.id == m.id) } }
  | none => st

/-- The clipping branch of `addModelFromRhino`:
`if (clippingPolygons && clippingPolygons.length > 0 && tileset)
applyClippingPolygons(...) else removeClipping(...)`. -/
def applyOrRemoveClipping (st : GeomState) (cps : Option (List (List ℚ))) : GeomState :=
  match cps with
  | some polys =>
    if !polys.isEmpty && st.tilesetPresent then applyClippingPolygonsFn st polys
    else removeClippingFn st
  | none => removeClippingFn st

/-- The success tail of `addModelFromRhino`: build the entity at
`(lat, lon, terrainHeight + position.height)` with a 90° heading, add it to
the viewer and record it as `currentModel`. -/
def placeEntity (env : SyncEnv) (st : GeomState) (p : SyncPayload) : GeomState :=
  let e : EntityRec :=
    { id := st.nextId, lat := p.lat, lon := p.lon,
      height := terrainHeight env + p.height, heading := 90 }
  { st with
    viewer := { st.viewer with entities := st.viewer.entities ++ [e] },
    currentModel := some e,
    nextId := st.nextId + 1 }

/-- `addModelFromRhino(viewer, tileset, data)` as a state transition: remove
the old model (before any check), bail out fatally on a null payload, an
error field or a missing `glbPath`, run the clipping stage, then read the
GLB (a throw is fatal but keeps the clipping changes) and place the
entity. -/
def addModelFromRhino (env : SyncEnv) (st : GeomState) (data : Option SyncPayload) :
    GeomState × SyncOutcome :=
  match data with
  | none => (removeOldModel st, .fatal)
  | some p =>
    if p.error.isSome then (removeOldModel st, .fatal)
    else if p.glbPath.isNone then (removeOldModel st, .fatal)
    else
      match env.glbRead with
      | .error _ => (applyOrRemoveClipping (removeOldModel st) p.clippingPolygons, .fatal)
      | .ok _ =>
        (placeEntity env (applyOrRemoveClipping (removeOldModel st) p.clippingPolygons) p,
          .success)

/-! ## Rhino-side export — src/rhino-plugin/httpServer.cs -/

/-- A model-space point (Rhino `Point3d`), coordinates as rationals. -/
abbrev Pt := ℚ × ℚ × ℚ

/-- What `GetClippingPolygonsJson` extracts from one object's geometry:
`closed` is `curve.IsClosed`; `direct` is the polyline from
`curve.TryGetPolyline` when it succeeds; `sampled` is the 64-point
`DivideByCount` fallback polyline (`none` when the NURBS conversion
fails). -/
structure CurveInfo where
  closed : Bool
  direct : Option (List Pt)
  sampled : Option (List Pt)
deriving DecidableEq

/-- One object on the `cesium_clip` layer; `curve = none` models geometry
that is not a curve and yields no boundary curve from an extrusion/brep. -/
structure ClipObj where
  curve : Option CurveInfo
deriving DecidableEq

/-- The polyline the source ends up with: the direct `TryGetPolyline`
result, else the sampled fallback. -/
def getPolyline (c : CurveInfo) : Option (List Pt) :=
  match c.direct with
  | some l => some l
  | none => c.sampled

/-- `polyline.IsClosed`: the first vertex equals the last. -/
def plineClosed (l : List Pt) : Bool :=
  decide (l.head? = l.getLast?)

/-- Per-object processing of `GetClippingPolygonsJson`: skip non-curves,
open curves and short polylines; drop the duplicate closing vertex when the
polyline is closed; keep the loop only if at least 3 vertices remain.
Returns the model-space vertex list of the emitted loop. -/
def processClipObject (o : ClipObj) : Option (List Pt) :=
  match o.curve with
  | none => none
  | some c =>
    if !c.closed then none
    else
      match getPolyline c with
      | none => none
      | some l =>
        if l.length < 3 then none
        else
          let verts := if plineClosed l then l.dropLast else l
          if 3 ≤ verts.length then some verts else none

/-- The flat `[lon1, lat1, lon2, lat2, ...]` loops emitted by
`GetClippingPolygonsJson`, given the `modelToEarth` transform restricted to
its (X, Y) = (lon, lat) output. -/
def getClippingPolygonsFlat (tf : Pt → ℚ × ℚ) (objs : List ClipObj) : List (List ℚ) :=
  (objs.filterMap processClipObject).map
    (fun verts => verts.flatMap (fun p => [(tf p).1, (tf p).2]))

/-- No two consecutive vertices of a polyline are equal (no zero-length
segment) — the well-formedness any polyline discretized from a curve
satisfies. -/
def consecDistinct : List Pt → Bool
  | [] => true
  | [_] => true
  | a :: b :: rest => a != b && consecDistinct (b :: rest)

/-- Validity of a clip object: whatever polyline it reduces to has no
zero-length segment. Objects yielding no polyline are vacuously valid. -/
def objValid (o : ClipObj) : Bool :=
  match o.curve with
  | none => true
  | some c =>
    match getPolyline c with
    | none => true
    | some l => consecDistinct l

/-- The Rhino document state read by `GetGeometryJsonInternal`:
layer lookups, object counts, the anchor flag, the model→earth transform
(as the (lon, lat) it assigns to model points) and the export outcome. -/
structure RhinoDocM where
  massingLayerFound : Bool
  massingObjCount : ℕ
  anchorSet : Bool
  clipLayerFound : Bool
  clipObjs : List ClipObj
  modelToEarth : Pt → ℚ × ℚ
  exportOk : Bool
  glbFileExists : Bool

/-- `GetClippingPolygonsJson(doc, anchor, modelToEarth)`: `[]` when the
`cesium_clip` layer is missing or empty, else the processed loops. -/
def getClippingPolygonsOf (d : RhinoDocM) : List (List ℚ) :=
  if !d.clipLayerFound then []
  else if d.clipObjs.isEmpty then []
  else getClippingPolygonsFlat d.modelToEarth d.clipObjs

/-- Wire payload of a successful geometry export. -/
structure WirePayload where
  glbPath : String
  lat : ℚ
  lon : ℚ
  height : ℚ
  clippingPolygons : List (List ℚ)

/-- Result of `GetGeometryJsonInternal`: an `{"error": ...}` JSON or the
payload JSON. -/
inductive GeomResult where
  | err (msg : String)
  | payload (w : WirePayload)

/-- `GetGeometryJsonInternal()` from httpServer.cs: the guard chain
(no document, missing `cesium_massing` layer, no objects, anchor not set),
then clipping extraction and GLB export; on success the payload position is
the `modelToEarth` image of the Rhino origin with `height = 0`. -/
def GetGeometryJsonInternal (doc : Option RhinoDocM) : GeomResult :=
  match doc with
  | none => .err "No active Rhino document"
  | some d =>
    if !d.massingLayerFound then .err "Layer cesium_massing not found"
    else if d.massingObjCount = 0 then .err "No objects on cesium_massing"
    else if !d.anchorSet then .err "EarthAnchorPoint not set. Please import a map first."
    else if !(d.exportOk && d.glbFileExists) then .err "Export command failed"
    else
      .payload
        { glbPath := "mcatlas_massing.glb"
          lat := (d.modelToEarth (0, 0, 0)).2
          lon := (d.modelToEarth (0, 0, 0)).1
          height := 0
          clippingPolygons := getClippingPolygonsOf d }

/-- The viewer-side payload built from a wire payload (JSON decode of the
successful export response). -/
def toSyncPayload (w : WirePayload) : SyncPayload :=
  { error := none
    glbPath := some w.glbPath
    lat := w.lat
    lon := w.lon
    height := w.height
    clippingPolygons := some w.clippingPolygons }

/-- For any integer `t`, `t ≤ 2 * ⌊t / 2⌋ + 1` (real-valued floor of the
halved integer, as computed by `Math.floor(tilesNeeded / 2)`). -/
theorem int_le_two_mul_floor_half_add_one (t : ℤ) :
    (t : ℝ) ≤ 2 * (⌊(t : ℝ) / 2⌋ : ℝ) + 1 := by
  rcases Int.even_or_odd t with ⟨k, hk⟩ | ⟨k, hk⟩
  · subst hk
    have h : ((k + k : ℤ) : ℝ) / 2 = ((k : ℤ) : ℝ) := by push_cast; ring
    rw [h, Int.floor_intCast]
    push_cast
    linarith
  · subst hk
    have h : ((2 * k + 1 : ℤ) : ℝ) / 2 = 1 / 2 + ((k : ℤ) : ℝ) := by push_cast; ring
    have h0 : ⌊(1 / 2 : ℝ)⌋ = 0 := by
      rw [Int.floor_eq_iff]
      constructor <;> norm_num
    rw [h, Int.floor_add_int, h0]
    push_cast
    linarith

/-- `|lat| < 90` puts the latitude in radians strictly inside `(-π/2, π/2)`. -/
theorem latRad_mem_Ioo {lat : ℝ} (hlat : |lat| < 90) :
    -(π / 2) < lat * π / 180 ∧ lat * π / 180 < π / 2 := by
  rw [abs_lt] at hlat
  have hpi : (0 : ℝ) < π / 180 := by positivity
  constructor
  · have := mul_lt_mul_of_pos_right hlat.1 hpi
    calc -(π / 2) = -90 * (π / 180) := by ring
    _ < lat * (π / 180) := by
        exact mul_lt_mul_of_pos_right hlat.1 hpi
    _ = lat * π / 180 := by ring
  · calc lat * π / 180 = lat * (π / 180) := by ring
    _ < 90 * (π / 180) := mul_lt_mul_of_pos_right hlat.2 hpi
    _ = π / 2 := by ring

/-- The cosine factor of `metersPerPixel` is positive for `|lat| < 90`. -/
theorem metersPerPixel_pos {lat : ℝ} (zoom : ℕ) (hlat : |lat| < 90) :
    0 < metersPerPixel lat zoom := by
  obtain ⟨h1, h2⟩ := latRad_mem_Ioo hlat
  have hcos : 0 < Real.cos (lat * π / 180) := Real.cos_pos_of_mem_Ioo ⟨h1, h2⟩
  unfold metersPerPixel
  apply div_pos
  · apply mul_pos (by norm_num) hcos
  · positivity

/-- C2: quantization in `calculateTileBounds` only grows the covered size:
for `|centerLat| < 90` (so `metersPerPixel` is positive), any longitude,
any positive `sizeMeters` and any zoom, `actualSizeMeters ≥ sizeMeters`. -/
theorem c2_calculateTileBounds_actualSize_ge (centerLat centerLon sizeMeters : ℝ) (zoom : ℕ)
    (hlat : |centerLat| < 90) (_hsize : 0 < sizeMeters) :
    sizeMeters ≤ (calculateTileBounds centerLat centerLon sizeMeters zoom).actualSizeMeters := by
  have hmpp : 0 < metersPerPixel centerLat zoom := metersPerPixel_pos zoom hlat
  have hceil : sizeMeters / metersPerPixel centerLat zoom / 256 ≤
      ((tilesNeeded centerLat sizeMeters zoom : ℤ) : ℝ) := Int.le_ceil _
  have hhalf : ((tilesNeeded centerLat sizeMeters zoom : ℤ) : ℝ) ≤
      2 * ((halfTiles centerLat sizeMeters zoom : ℤ) : ℝ) + 1 := by
    have := int_le_two_mul_floor_half_add_one (tilesNeeded centerLat sizeMeters zoom)
    unfold halfTiles
    exact this
  have hstep : sizeMeters ≤ ((tilesNeeded centerLat sizeMeters zoom : ℤ) : ℝ) *
      (metersPerPixel centerLat zoom * 256) := by
    have h256 : (0 : ℝ) < metersPerPixel centerLat zoom * 256 := by positivity
    rw [div_div] at hceil
    calc sizeMeters
        = sizeMeters / (metersPerPixel centerLat zoom * 256) *
          (metersPerPixel centerLat zoom * 256) := by field_simp
      _ ≤ ((tilesNeeded centerLat sizeMeters zoom : ℤ) : ℝ) *
          (metersPerPixel centerLat zoom * 256) :=
        mul_le_mul_of_nonneg_right hceil h256.le
  have hstep2 : ((tilesNeeded centerLat sizeMeters zoom : ℤ) : ℝ) *
      (metersPerPixel centerLat zoom * 256) ≤
      (2 * ((halfTiles centerLat sizeMeters zoom : ℤ) : ℝ) + 1) *
      (metersPerPixel centerLat zoom * 256) := by
    have h256 : (0 : ℝ) ≤ metersPerPixel centerLat zoom * 256 := by positivity
    exact mul_le_mul_of_nonneg_right hhalf h256
  show sizeMeters ≤
      (((((latLonToTile centerLat centerLon zoom).1 + halfTiles centerLat sizeMeters zoom) -
        ((latLonToTile centerLat centerLon zoom).1 - halfTiles centerLat sizeMeters zoom) + 1 : ℤ) : ℝ)) *
      256 * metersPerPixel centerLat zoom
  have hcast : ((((latLonToTile centerLat centerLon zoom).1 + halfTiles centerLat sizeMeters zoom) -
      ((latLonToTile centerLat centerLon zoom).1 - halfTiles centerLat sizeMeters zoom) + 1 : ℤ) : ℝ) =
      2 * ((halfTiles centerLat sizeMeters zoom : ℤ) : ℝ) + 1 := by
    push_cast
    ring
  rw [hcast]
  calc sizeMeters ≤ ((tilesNeeded centerLat sizeMeters zoom : ℤ) : ℝ) *
      (metersPerPixel centerLat zoom * 256) := hstep
    _ ≤ (2 * ((halfTiles centerLat sizeMeters zoom : ℤ) : ℝ) + 1) *
      (metersPerPixel centerLat zoom * 256) := hstep2
    _ = (2 * ((halfTiles centerLat sizeMeters zoom : ℤ) : ℝ) + 1) *
      256 * metersPerPixel centerLat zoom := by ring

/-- Witness for `c2_calculateTileBounds_actualSize_ge` at
`centerLat = 0, centerLon = 0, sizeMeters = 1, zoom = 0`. -/
theorem c2_witness :
    |(0 : ℝ)| < 90 ∧ (0 : ℝ) < 1 ∧
      (1 : ℝ) ≤ (calculateTileBounds 0 0 1 0).actualSizeMeters :=
  ⟨by norm_num, by norm_num,
    c2_calculateTileBounds_actualSize_ge 0 0 1 0 (by norm_num) (by norm_num)⟩

/-- Inverse identity at the heart of C9: for `φ` strictly inside
`(-π/2, π/2)`, `atan (sinh (log (tan φ + 1 / cos φ))) = φ`. -/
theorem arctan_sinh_log_tan_add_sec {φ : ℝ} (h1 : -(π / 2) < φ) (h2 : φ < π / 2) :
    Real.arctan (Real.sinh (Real.log (Real.tan φ + 1 / Real.cos φ))) = φ := by
  have hc : 0 < Real.cos φ := Real.cos_pos_of_mem_Ioo ⟨h1, h2⟩
  have hs : -1 < Real.sin φ := by
    rcases eq_or_lt_of_le (Real.neg_one_le_sin φ) with h | h
    · exfalso
      nlinarith [Real.sin_sq_add_cos_sq φ]
    · exact h
  have hu : 0 < Real.tan φ + 1 / Real.cos φ := by
    rw [Real.tan_eq_sin_div_cos, div_add_div_same]
    exact div_pos (by linarith) hc
  have hinv : (Real.tan φ + 1 / Real.cos φ)⁻¹ = 1 / Real.cos φ - Real.tan φ := by
    apply inv_eq_of_mul_eq_one_right
    rw [Real.tan_eq_sin_div_cos]
    field_simp
    nlinarith [Real.sin_sq_add_cos_sq φ]
  rw [Real.sinh_log hu, hinv]
  have heq : (Real.tan φ + 1 / Real.cos φ - (1 / Real.cos φ - Real.tan φ)) / 2 = Real.tan φ := by
    ring
  rw [heq, Real.arctan_tan h1 h2]

/-- `tileToLatR` inverts `mercY`: feeding the (real-valued) mercator y
coordinate of a latitude back through the tile-to-latitude formula returns
that latitude, for any `|lat| < 90`. -/
theorem tileToLatR_mercY {lat : ℝ} (zoom : ℕ) (hlat : |lat| < 90) :
    tileToLatR (mercY lat zoom) zoom = lat := by
  obtain ⟨h1, h2⟩ := latRad_mem_Ioo hlat
  have hn : ((2 : ℝ) ^ zoom) ≠ 0 := by positivity
  have hpi : (π : ℝ) ≠ 0 := Real.pi_ne_zero
  unfold tileToLatR mercY
  have harg : π * (1 - 2 *
      ((1 - Real.log (Real.tan (lat * π / 180) + 1 / Real.cos (lat * π / 180)) / π) / 2 * 2 ^ zoom) /
        2 ^ zoom) =
      Real.log (Real.tan (lat * π / 180) + 1 / Real.cos (lat * π / 180)) := by
    field_simp
    ring
  rw [harg, arctan_sinh_log_tan_add_sec h1 h2]
  field_simp

/-- `tileToLatR` is strictly decreasing in the y coordinate. -/
theorem tileToLatR_strictAnti (zoom : ℕ) : StrictAnti (tileToLatR · zoom) := by
  intro a b hab
  have hn : (0 : ℝ) < 2 ^ zoom := by positivity
  have h1 : π * (1 - 2 * b / 2 ^ zoom) < π * (1 - 2 * a / 2 ^ zoom) := by
    apply mul_lt_mul_of_pos_left _ Real.pi_pos
    have hd : 2 * a / 2 ^ zoom < 2 * b / 2 ^ zoom :=
      (div_lt_div_iff_of_pos_right hn).mpr (by linarith)
    linarith
  have h2 := Real.arctan_strictMono (Real.sinh_lt_sinh.mpr h1)
  show tileToLatR b zoom < tileToLatR a zoom
  unfold tileToLatR
  rw [div_lt_div_iff_of_pos_right Real.pi_pos]
  exact mul_lt_mul_of_pos_right h2 (by norm_num)

/-- C9: `latLonToTile` then `tileToLatLon` at the same zoom returns a point
within one tile's span of the input: the longitude moves by less than
`360 / 2^zoom` and the latitude by less than the containing tile's latitude
extent (top edge minus bottom edge of the tile holding the point). -/
theorem c9_roundtrip_within_tile (lat lon : ℝ) (zoom : ℕ) (hlat : |lat| < 90) :
    |(tileToLatLon (latLonToTile lat lon zoom).1 (latLonToTile lat lon zoom).2 zoom).2 - lon| <
      360 / 2 ^ zoom ∧
    |(tileToLatLon (latLonToTile lat lon zoom).1 (latLonToTile lat lon zoom).2 zoom).1 - lat| <
      (tileToLatLon (latLonToTile lat lon zoom).1 (latLonToTile lat lon zoom).2 zoom).1 -
        (tileToLatLon (latLonToTile lat lon zoom).1 ((latLonToTile lat lon zoom).2 + 1) zoom).1 := by
  have hn : (0 : ℝ) < 2 ^ zoom := by positivity
  constructor
  · -- longitude part
    show |((⌊(lon + 180) / 360 * 2 ^ zoom⌋ : ℤ) : ℝ) / 2 ^ zoom * 360 - 180 - lon| < 360 / 2 ^ zoom
    have hfl : ((⌊(lon + 180) / 360 * 2 ^ zoom⌋ : ℤ) : ℝ) ≤ (lon + 180) / 360 * 2 ^ zoom :=
      Int.floor_le _
    have hfu : (lon + 180) / 360 * 2 ^ zoom < ((⌊(lon + 180) / 360 * 2 ^ zoom⌋ : ℤ) : ℝ) + 1 :=
      Int.lt_floor_add_one _
    have h360 : (0 : ℝ) < 360 / 2 ^ zoom := by positivity
    have hsplit : ((⌊(lon + 180) / 360 * 2 ^ zoom⌋ : ℤ) : ℝ) / 2 ^ zoom * 360 - 180 - lon =
        (((⌊(lon + 180) / 360 * 2 ^ zoom⌋ : ℤ) : ℝ) - (lon + 180) / 360 * 2 ^ zoom) *
          (360 / 2 ^ zoom) := by
      field_simp
      ring
    rw [hsplit, abs_lt]
    constructor
    · have := mul_lt_mul_of_pos_right
        (show (-1 : ℝ) < ((⌊(lon + 180) / 360 * 2 ^ zoom⌋ : ℤ) : ℝ) -
          (lon + 180) / 360 * 2 ^ zoom from by linarith) h360
      linarith
    · have hnp : 0 ≤ ((lon + 180) / 360 * 2 ^ zoom -
          ((⌊(lon + 180) / 360 * 2 ^ zoom⌋ : ℤ) : ℝ)) * (360 / 2 ^ zoom) :=
        mul_nonneg (by linarith) h360.le
      have hneg : (((⌊(lon + 180) / 360 * 2 ^ zoom⌋ : ℤ) : ℝ) -
          (lon + 180) / 360 * 2 ^ zoom) * (360 / 2 ^ zoom) =
          -(((lon + 180) / 360 * 2 ^ zoom -
            ((⌊(lon + 180) / 360 * 2 ^ zoom⌋ : ℤ) : ℝ)) * (360 / 2 ^ zoom)) := by
        ring
      rw [hneg]
      linarith
  · -- latitude part
    have hfl : (((latLonToTile lat lon zoom).2 : ℤ) : ℝ) ≤ mercY lat zoom := Int.floor_le _
    have hfu : mercY lat zoom < (((latLonToTile lat lon zoom).2 : ℤ) : ℝ) + 1 :=
      Int.lt_floor_add_one _
    have hA : tileToLatR (mercY lat zoom) zoom ≤
        tileToLatR (((latLonToTile lat lon zoom).2 : ℤ) : ℝ) zoom :=
      (tileToLatR_strictAnti zoom).antitone hfl
    rw [tileToLatR_mercY zoom hlat] at hA
    have hB : tileToLatR ((((latLonToTile lat lon zoom).2 : ℤ) : ℝ) + 1) zoom <
        tileToLatR (mercY lat zoom) zoom :=
      tileToLatR_strictAnti zoom hfu
    rw [tileToLatR_mercY zoom hlat] at hB
    show |tileToLatR (((latLonToTile lat lon zoom).2 : ℤ) : ℝ) zoom - lat| <
      tileToLatR (((latLonToTile lat lon zoom).2 : ℤ) : ℝ) zoom -
        tileToLatR ((((latLonToTile lat lon zoom).2 + 1 : ℤ)) : ℝ) zoom
    have hcast : ((((latLonToTile lat lon zoom).2 + 1 : ℤ)) : ℝ) =
        (((latLonToTile lat lon zoom).2 : ℤ) : ℝ) + 1 := by push_cast; ring
    rw [hcast, abs_of_nonneg (by linarith)]
    linarith

/-- Witness for `c9_roundtrip_within_tile` at `lat = 0, lon = 0, zoom = 0`. -/
theorem c9_witness :
    |(0 : ℝ)| < 90 ∧
      (|(tileToLatLon (latLonToTile 0 0 0).1 (latLonToTile 0 0 0).2 0).2 - 0| < 360 / 2 ^ 0 ∧
        |(tileToLatLon (latLonToTile 0 0 0).1 (latLonToTile 0 0 0).2 0).1 - 0| <
          (tileToLatLon (latLonToTile 0 0 0).1 (latLonToTile 0 0 0).2 0).1 -
            (tileToLatLon (latLonToTile 0 0 0).1 ((latLonToTile 0 0 0).2 + 1) 0).1) :=
  ⟨by norm_num, c9_roundtrip_within_tile 0 0 0 (by norm_num)⟩

/-- C7 counterexample: at center `(lat, lon) = (0, -180)`, `sizeMeters = 10^8`
and `zoom = 0`, `calculateTileBounds` produces `startX = -1`, which is not a
valid slippy-map x index (it violates `0 ≤ x`), refuting the claim that every
tile coordinate in the produced range satisfies `0 ≤ x < 2^zoom`. -/
theorem c7_counterexample :
    (calculateTileBounds 0 (-180) 100000000 0).startX = -1 ∧
      (calculateTileBounds 0 (-180) 100000000 0).startX < 0 := by
  have hmpp : metersPerPixel 0 0 = 156543.03392 := by
    unfold metersPerPixel
    norm_num
  have htn : tilesNeeded 0 100000000 0 = 3 := by
    unfold tilesNeeded
    rw [hmpp, Int.ceil_eq_iff]
    constructor <;> norm_num
  have hht : halfTiles 0 100000000 0 = 1 := by
    unfold halfTiles
    rw [htn]
    rw [Int.floor_eq_iff]
    constructor <;> norm_num
  have hct : (latLonToTile 0 (-180) 0).1 = 0 := by
    unfold latLonToTile
    norm_num
  have hsx : (calculateTileBounds 0 (-180) 100000000 0).startX =
      (latLonToTile 0 (-180) 0).1 - halfTiles 0 100000000 0 := rfl
  rw [hsx, hct, hht]
  norm_num

/-- C7 amended: a tile coordinate `(x, y)` drawn from the range produced by
`calculateTileBounds` is a valid `TileIndex` (`0 ≤ x, y < 2^zoom`) provided
the centered range fits inside the tile grid, i.e. the center tile is at
least `halfTiles` away from every grid edge. (Unrestricted, the claim fails:
see the counterexample at longitude `-180`.) -/
theorem c7_amended_tile_range_valid (lat lon size : ℝ) (zoom : ℕ) (x y : ℤ)
    (hfit : halfTiles lat size zoom ≤ (latLonToTile lat lon zoom).1 ∧
      (latLonToTile lat lon zoom).1 + halfTiles lat size zoom < 2 ^ zoom ∧
      halfTiles lat size zoom ≤ (latLonToTile lat lon zoom).2 ∧
      (latLonToTile lat lon zoom).2 + halfTiles lat size zoom < 2 ^ zoom)
    (hin : (calculateTileBounds lat lon size zoom).startX ≤ x ∧
      x ≤ (calculateTileBounds lat lon size zoom).endX ∧
      (calculateTileBounds lat lon size zoom).startY ≤ y ∧
      y ≤ (calculateTileBounds lat lon size zoom).endY) :
    0 ≤ x ∧ x < 2 ^ zoom ∧ 0 ≤ y ∧ y < 2 ^ zoom := by
  obtain ⟨hf1, hf2, hf3, hf4⟩ := hfit
  obtain ⟨hi1, hi2, hi3, hi4⟩ := hin
  have hsx : (calculateTileBounds lat lon size zoom).startX =
      (latLonToTile lat lon zoom).1 - halfTiles lat size zoom := rfl
  have hex : (calculateTileBounds lat lon size zoom).endX =
      (latLonToTile lat lon zoom).1 + halfTiles lat size zoom := rfl
  have hsy : (calculateTileBounds lat lon size zoom).startY =
      (latLonToTile lat lon zoom).2 - halfTiles lat size zoom := rfl
  have hey : (calculateTileBounds lat lon size zoom).endY =
      (latLonToTile lat lon zoom).2 + halfTiles lat size zoom := rfl
  rw [hsx] at hi1
  rw [hex] at hi2
  rw [hsy] at hi3
  rw [hey] at hi4
  refine ⟨by linarith, by linarith, by linarith, by linarith⟩

/-- Witness for `c7_amended_tile_range_valid` at
`lat = 0, lon = 0, size = 1000, zoom = 1, (x, y) = (1, 1)`. -/
theorem c7_witness :
    (halfTiles 0 1000 1 ≤ (latLonToTile 0 0 1).1 ∧
        (latLonToTile 0 0 1).1 + halfTiles 0 1000 1 < 2 ^ 1 ∧
        halfTiles 0 1000 1 ≤ (latLonToTile 0 0 1).2 ∧
        (latLonToTile 0 0 1).2 + halfTiles 0 1000 1 < 2 ^ 1) ∧
      ((calculateTileBounds 0 0 1000 1).startX ≤ 1 ∧
        (1 : ℤ) ≤ (calculateTileBounds 0 0 1000 1).endX ∧
        (calculateTileBounds 0 0 1000 1).startY ≤ 1 ∧
        (1 : ℤ) ≤ (calculateTileBounds 0 0 1000 1).endY) ∧
      (0 ≤ (1 : ℤ) ∧ (1 : ℤ) < 2 ^ 1 ∧ 0 ≤ (1 : ℤ) ∧ (1 : ℤ) < 2 ^ 1) := by
  have hmpp : metersPerPixel 0 1 = 156543.03392 / 2 := by
    unfold metersPerPixel
    norm_num
  have htn : tilesNeeded 0 1000 1 = 1 := by
    unfold tilesNeeded
    rw [hmpp, Int.ceil_eq_iff]
    constructor <;> norm_num
  have hht : halfTiles 0 1000 1 = 0 := by
    unfold halfTiles
    rw [htn]
    rw [Int.floor_eq_iff]
    constructor <;> norm_num
  have hctx : (latLonToTile 0 0 1).1 = 1 := by
    unfold latLonToTile
    norm_num
  have hcty : (latLonToTile 0 0 1).2 = 1 := by
    unfold latLonToTile mercY
    norm_num [Real.tan_zero, Real.cos_zero, Real.log_one]
  have hfit : halfTiles 0 1000 1 ≤ (latLonToTile 0 0 1).1 ∧
      (latLonToTile 0 0 1).1 + halfTiles 0 1000 1 < 2 ^ 1 ∧
      halfTiles 0 1000 1 ≤ (latLonToTile 0 0 1).2 ∧
      (latLonToTile 0 0 1).2 + halfTiles 0 1000 1 < 2 ^ 1 := by
    rw [hht, hctx, hcty]
    norm_num
  have hin : (calculateTileBounds 0 0 1000 1).startX ≤ 1 ∧
      (1 : ℤ) ≤ (calculateTileBounds 0 0 1000 1).endX ∧
      (calculateTileBounds 0 0 1000 1).startY ≤ 1 ∧
      (1 : ℤ) ≤ (calculateTileBounds 0 0 1000 1).endY := by
    have h1 : (calculateTileBounds 0 0 1000 1).startX =
        (latLonToTile 0 0 1).1 - halfTiles 0 1000 1 := rfl
    have h2 : (calculateTileBounds 0 0 1000 1).endX =
        (latLonToTile 0 0 1).1 + halfTiles 0 1000 1 := rfl
    have h3 : (calculateTileBounds 0 0 1000 1).startY =
        (latLonToTile 0 0 1).2 - halfTiles 0 1000 1 := rfl
    have h4 : (calculateTileBounds 0 0 1000 1).endY =
        (latLonToTile 0 0 1).2 + halfTiles 0 1000 1 := rfl
    rw [h1, h2, h3, h4, hht, hctx, hcty]
    norm_num
  exact ⟨hfit, hin, c7_amended_tile_range_valid 0 0 1000 1 1 1 hfit hin⟩

/-- Membership in the inclusive integer range. -/
theorem mem_intRange {lo hi a : ℤ} : a ∈ intRange lo hi ↔ lo ≤ a ∧ a ≤ hi := by
  unfold intRange
  rw [List.mem_map]
  constructor
  · rintro ⟨i, hi', rfl⟩
    rw [List.mem_range] at hi'
    omega
  · rintro ⟨h1, h2⟩
    refine ⟨(a - lo).toNat, ?_, ?_⟩
    · rw [List.mem_range]
      omega
    · omega

/-- C3: with at least one imagery layer, `fetchAndStitchTiles` returns (does
not throw) a canvas of exactly `pixelWidth × pixelHeight`; a draw call for
image `img` at offset `(cx, cy)` is on the canvas iff some in-range tile
`(x, y)` fetched successfully with `cx = (x - startX) * 256`,
`cy = (y - startY) * 256` — so each of the successful tiles is drawn at its
grid offset and each failed tile's region stays blank; and the function
throws exactly when no imagery layer is available at all. -/
theorem c3_stitch_tolerates_tile_failures (provider : ImageryProvider)
    (rest : List ImageryProvider) (tb : TileBounds) (c : Canvas)
    (h : fetchAndStitchTiles (some (provider :: rest)) tb = .ok c) :
    c.width = tb.pixelWidth ∧ c.height = tb.pixelHeight ∧
    (∀ (img : ℕ) (cx cy : ℤ), (⟨img, cx, cy⟩ : DrawCall) ∈ c.drawn ↔
      ∃ x y, tb.startX ≤ x ∧ x ≤ tb.endX ∧ tb.startY ≤ y ∧ y ≤ tb.endY ∧
        cx = (x - tb.startX) * 256 ∧ cy = (y - tb.startY) * 256 ∧
        provider x y tb.zoom = .ok (some img)) ∧
    (∀ imagery : Option (List ImageryProvider),
      exceptIsError (fetchAndStitchTiles imagery tb) = true ↔
        imagery = none ∨ imagery = some []) := by
  have hc : c =
      { width := tb.pixelWidth
        height := tb.pixelHeight
        drawn :=
          (intRange tb.startY tb.endY).flatMap (fun y =>
            (intRange tb.startX tb.endX).filterMap (fun x =>
              match provider x y tb.zoom with
              | .ok (some img) =>
                some ⟨img, (x - tb.startX) * 256, (y - tb.startY) * 256⟩
              | _ => none)) } := by
    have h' := h
    unfold fetchAndStitchTiles at h'
    exact (Except.ok.inj h').symm
  subst hc
  refine ⟨rfl, rfl, ?_, ?_⟩
  · intro img cx cy
    simp only [List.mem_flatMap, List.mem_filterMap]
    constructor
    · rintro ⟨y, hy, x, hx, hmatch⟩
      rw [mem_intRange] at hy hx
      cases hpr : provider x y tb.zoom with
      | error e => rw [hpr] at hmatch; exact absurd hmatch (by simp)
      | ok o =>
        cases o with
        | none => rw [hpr] at hmatch; exact absurd hmatch (by simp)
        | some img' =>
          rw [hpr] at hmatch
          simp only [Option.some.injEq] at hmatch
          obtain ⟨h1, h2, h3⟩ := DrawCall.mk.injEq _ _ _ _ _ _ ▸ hmatch
          exact ⟨x, y, hx.1, hx.2, hy.1, hy.2, h2.symm, h3.symm, by rw [hpr, h1]⟩
    · rintro ⟨x, y, hx1, hx2, hy1, hy2, hcx, hcy, hpr⟩
      refine ⟨y, mem_intRange.mpr ⟨hy1, hy2⟩, x, mem_intRange.mpr ⟨hx1, hx2⟩, ?_⟩
      rw [hpr, hcx, hcy]
  · intro imagery
    match imagery with
    | none => simp [fetchAndStitchTiles, exceptIsError]
    | some [] => simp [fetchAndStitchTiles, exceptIsError]
    | some (p :: rest') => simp [fetchAndStitchTiles, exceptIsError]

/-- Witness for `c3_stitch_tolerates_tile_failures`: a 2×2 tile range where
tile (0,0) succeeds with image 7, the x = 1 column throws, and tile (0,1)
returns no image; the stitched canvas is 512×512 with the single successful
draw call. -/
theorem c3_witness :
    fetchAndStitchTiles
        (some [fun x y _ => if x = 0 ∧ y = 0 then Except.ok (some 7)
          else if x = 1 then Except.error "network" else Except.ok none])
        ⟨0, 0, 0, 1, 1, 2, 2, 4, 512, 512, 0, 0, 0, 0, 0, 0⟩ =
      Except.ok ⟨512, 512, [⟨7, 0, 0⟩]⟩ ∧
    ((⟨512, 512, [⟨7, 0, 0⟩]⟩ : Canvas).width =
        (⟨0, 0, 0, 1, 1, 2, 2, 4, 512, 512, 0, 0, 0, 0, 0, 0⟩ : TileBounds).pixelWidth ∧
      (⟨512, 512, [⟨7, 0, 0⟩]⟩ : Canvas).height =
        (⟨0, 0, 0, 1, 1, 2, 2, 4, 512, 512, 0, 0, 0, 0, 0, 0⟩ : TileBounds).pixelHeight ∧
      (∀ (img : ℕ) (cx cy : ℤ),
        (⟨img, cx, cy⟩ : DrawCall) ∈ (⟨512, 512, [⟨7, 0, 0⟩]⟩ : Canvas).drawn ↔
        ∃ x y, (0 : ℤ) ≤ x ∧ x ≤ 1 ∧ (0 : ℤ) ≤ y ∧ y ≤ 1 ∧
          cx = (x - 0) * 256 ∧ cy = (y - 0) * 256 ∧
          (fun x y (_ : ℕ) => if x = 0 ∧ y = 0 then Except.ok (some 7)
            else if x = 1 then Except.error "network" else Except.ok none) x y 0 =
            Except.ok (some img)) ∧
      (∀ imagery : Option (List ImageryProvider),
        exceptIsError (fetchAndStitchTiles imagery
            ⟨0, 0, 0, 1, 1, 2, 2, 4, 512, 512, 0, 0, 0, 0, 0, 0⟩) = true ↔
          imagery = none ∨ imagery = some [])) := by
  have hok : fetchAndStitchTiles
      (some [fun x y _ => if x = 0 ∧ y = 0 then Except.ok (some 7)
        else if x = 1 then Except.error "network" else Except.ok none])
      ⟨0, 0, 0, 1, 1, 2, 2, 4, 512, 512, 0, 0, 0, 0, 0, 0⟩ =
      Except.ok ⟨512, 512, [⟨7, 0, 0⟩]⟩ := by
    unfold fetchAndStitchTiles intRange
    simp only []
    rfl
  exact ⟨hok, c3_stitch_tolerates_tile_failures _ _ _ _ hok⟩

/-- `removeOldModel` only touches the entity list. -/
theorem removeOldModel_fields (st : GeomState) :
    (removeOldModel st).currentModel = st.currentModel ∧
    (removeOldModel st).currentClipping = st.currentClipping ∧
    (removeOldModel st).tilesetPresent = st.tilesetPresent ∧
    (removeOldModel st).tilesetClipping = st.tilesetClipping ∧
    (removeOldModel st).viewer.hasGlobe = st.viewer.hasGlobe ∧
    (removeOldModel st).viewer.globeClipping = st.viewer.globeClipping ∧
    (removeOldModel st).nextId = st.nextId := by
  unfold removeOldModel
  rcases hcm : st.currentModel with _ | m <;> simp [hcm]

/-- The entity list after `removeOldModel`. -/
theorem removeOldModel_entities (st : GeomState) :
    (removeOldModel st).viewer.entities =
      (match st.currentModel with
       | some m => st.viewer.entities.eraseP (fun e => e.id == m.id)
       | none => st.viewer.entities) := by
  unfold removeOldModel
  rcases hcm : st.currentModel with _ | m <;> simp [hcm]

/-- The clipping stage never touches the model state, the entity list, the
tileset/globe presence flags or the id counter. -/
theorem applyOrRemoveClipping_fields (st : GeomState) (cps : Option (List (List ℚ))) :
    (applyOrRemoveClipping st cps).currentModel = st.currentModel ∧
    (applyOrRemoveClipping st cps).viewer.entities = st.viewer.entities ∧
    (applyOrRemoveClipping st cps).tilesetPresent = st.tilesetPresent ∧
    (applyOrRemoveClipping st cps).viewer.hasGlobe = st.viewer.hasGlobe ∧
    (applyOrRemoveClipping st cps).nextId = st.nextId := by
  unfold applyOrRemoveClipping applyClippingPolygonsFn removeClippingFn
  rcases cps with _ | polys <;> simp only []
  · split <;> simp
  · split
    · split <;> split <;> simp
    · split <;> simp

/-- Branch lemma: a payload carrying an error field returns fatally with
only the old model removed. -/
theorem addModel_eq_of_error (env : SyncEnv) (st : GeomState) (p : SyncPayload)
    (s : String) (h : p.error = some s) :
    addModelFromRhino env st (some p) = (removeOldModel st, SyncOutcome.fatal) := by
  simp [addModelFromRhino, h]

/-- Branch lemma: a payload without `glbPath` returns fatally with only the
old model removed. -/
theorem addModel_eq_of_noPath (env : SyncEnv) (st : GeomState) (p : SyncPayload)
    (h1 : p.error = none) (h2 : p.glbPath = none) :
    addModelFromRhino env st (some p) = (removeOldModel st, SyncOutcome.fatal) := by
  simp [addModelFromRhino, h1, h2]

/-- Branch lemma: when the GLB read throws, the run is fatal after the old
model was removed and the clipping stage already ran. -/
theorem addModel_eq_of_glbError (env : SyncEnv) (st : GeomState) (p : SyncPayload)
    (e : String) (h1 : p.error = none) (h2 : p.glbPath.isNone = false)
    (h3 : env.glbRead = Except.error e) :
    addModelFromRhino env st (some p) =
      (applyOrRemoveClipping (removeOldModel st) p.clippingPolygons, SyncOutcome.fatal) := by
  simp [addModelFromRhino, h1, h2, h3]

/-- Branch lemma: the success path of `addModelFromRhino`. -/
theorem addModel_eq_of_success (env : SyncEnv) (st : GeomState) (p : SyncPayload)
    (b : ℕ) (h1 : p.error = none) (h2 : p.glbPath.isNone = false)
    (h3 : env.glbRead = Except.ok b) :
    addModelFromRhino env st (some p) =
      (placeEntity env (applyOrRemoveClipping (removeOldModel st) p.clippingPolygons) p,
        SyncOutcome.success) := by
  simp [addModelFromRhino, h1, h2, h3]

/-- C1 counterexample: with a previously placed model and a `null` payload
(a fatal error), `addModelFromRhino` still removes the previous entity from
the viewer — the scene does not keep the previously placed asset, refuting
the claim that a failed sync leaves the current placed asset unchanged. -/
theorem c1_counterexample :
    (⟨0, 1, 2, 3, 90⟩ : EntityRec) ∈
        (⟨⟨[⟨0, 1, 2, 3, 90⟩], true, none⟩, true, none,
          some ⟨0, 1, 2, 3, 90⟩, none, 1⟩ : GeomState).viewer.entities ∧
      (addModelFromRhino ⟨Except.ok 0, none⟩
          ⟨⟨[⟨0, 1, 2, 3, 90⟩], true, none⟩, true, none, some ⟨0, 1, 2, 3, 90⟩, none, 1⟩
          none).2 = SyncOutcome.fatal ∧
      (⟨0, 1, 2, 3, 90⟩ : EntityRec) ∉
        (addModelFromRhino ⟨Except.ok 0, none⟩
          ⟨⟨[⟨0, 1, 2, 3, 90⟩], true, none⟩, true, none, some ⟨0, 1, 2, 3, 90⟩, none, 1⟩
          none).1.viewer.entities := by
  refine ⟨by decide, by decide, by decide⟩

/-- C1 amended: a fatal run of `addModelFromRhino` leaves the `currentModel`
reference unchanged, but the previously placed entity (if any) has already
been removed from the viewer before the error was detected — the resulting
entity list is the original one with the previous model erased, not the
original one. -/
theorem c1_amended_failed_sync_removes_previous (env : SyncEnv) (st : GeomState)
    (data : Option SyncPayload)
    (hfatal : (addModelFromRhino env st data).2 = SyncOutcome.fatal) :
    (addModelFromRhino env st data).1.currentModel = st.currentModel ∧
    (addModelFromRhino env st data).1.viewer.entities =
      (match st.currentModel with
       | some m => st.viewer.entities.eraseP (fun e => e.id == m.id)
       | none => st.viewer.entities) := by
  rcases data with _ | p
  · exact ⟨(removeOldModel_fields st).1, removeOldModel_entities st⟩
  · rcases herr : p.error with _ | s
    · rcases hpath : p.glbPath with _ | path
      · rw [addModel_eq_of_noPath env st p herr hpath]
        exact ⟨(removeOldModel_fields st).1, removeOldModel_entities st⟩
      · have h2 : p.glbPath.isNone = false := by rw [hpath]; rfl
        rcases hg : env.glbRead with e | b
        · rw [addModel_eq_of_glbError env st p e herr h2 hg]
          refine ⟨?_, ?_⟩
          · rw [show (applyOrRemoveClipping (removeOldModel st) p.clippingPolygons,
              SyncOutcome.fatal).1 = applyOrRemoveClipping (removeOldModel st)
                p.clippingPolygons from rfl,
              (applyOrRemoveClipping_fields _ _).1, (removeOldModel_fields st).1]
          · rw [show (applyOrRemoveClipping (removeOldModel st) p.clippingPolygons,
              SyncOutcome.fatal).1 = applyOrRemoveClipping (removeOldModel st)
                p.clippingPolygons from rfl,
              (applyOrRemoveClipping_fields _ _).2.1, removeOldModel_entities st]
        · rw [addModel_eq_of_success env st p b herr h2 hg] at hfatal
          exact absurd hfatal (by simp)
    · rw [addModel_eq_of_error env st p s herr]
      exact ⟨(removeOldModel_fields st).1, removeOldModel_entities st⟩

/-- Witness for `c1_amended_failed_sync_removes_previous` at a concrete
fatal input (payload carrying an error field, one placed model). -/
theorem c1_witness :
    (addModelFromRhino ⟨Except.ok 0, none⟩
        ⟨⟨[⟨0, 1, 2, 3, 90⟩], true, none⟩, true, none, some ⟨0, 1, 2, 3, 90⟩, none, 1⟩
        (some ⟨some "boom", some "x.glb", 0, 0, 0, none⟩)).2 = SyncOutcome.fatal ∧
      ((addModelFromRhino ⟨Except.ok 0, none⟩
          ⟨⟨[⟨0, 1, 2, 3, 90⟩], true, none⟩, true, none, some ⟨0, 1, 2, 3, 90⟩, none, 1⟩
          (some ⟨some "boom", some "x.glb", 0, 0, 0, none⟩)).1.currentModel =
        (⟨⟨[⟨0, 1, 2, 3, 90⟩], true, none⟩, true, none,
          some ⟨0, 1, 2, 3, 90⟩, none, 1⟩ : GeomState).currentModel ∧
      (addModelFromRhino ⟨Except.ok 0, none⟩
          ⟨⟨[⟨0, 1, 2, 3, 90⟩], true, none⟩, true, none, some ⟨0, 1, 2, 3, 90⟩, none, 1⟩
          (some ⟨some "boom", some "x.glb", 0, 0, 0, none⟩)).1.viewer.entities =
        (match (⟨⟨[⟨0, 1, 2, 3, 90⟩], true, none⟩, true, none,
            some ⟨0, 1, 2, 3, 90⟩, none, 1⟩ : GeomState).currentModel with
         | some m =>
           (⟨⟨[⟨0, 1, 2, 3, 90⟩], true, none⟩, true, none,
             some ⟨0, 1, 2, 3, 90⟩, none, 1⟩ : GeomState).viewer.entities.eraseP
               (fun e => e.id == m.id)
         | none =>
           (⟨⟨[⟨0, 1, 2, 3, 90⟩], true, none⟩, true, none,
             some ⟨0, 1, 2, 3, 90⟩, none, 1⟩ : GeomState).viewer.entities)) := by
  have hfatal : (addModelFromRhino ⟨Except.ok 0, none⟩
      ⟨⟨[⟨0, 1, 2, 3, 90⟩], true, none⟩, true, none, some ⟨0, 1, 2, 3, 90⟩, none, 1⟩
      (some ⟨some "boom", some "x.glb", 0, 0, 0, none⟩)).2 = SyncOutcome.fatal := by decide
  exact ⟨hfatal, c1_amended_failed_sync_removes_previous ⟨Except.ok 0, none⟩
    ⟨⟨[⟨0, 1, 2, 3, 90⟩], true, none⟩, true, none, some ⟨0, 1, 2, 3, 90⟩, none, 1⟩
    (some ⟨some "boom", some "x.glb", 0, 0, 0, none⟩) hfatal⟩

/-- C4: for every payload that passes the error/glbPath checks and whose GLB
file read succeeds, the run succeeds and places an entity whose height is
exactly `terrainHeight env + payload.height`; no hypothesis constrains the
terrain source, so terrain failure never aborts placement, and in every
degraded case (no globe/provider, sample throw, undefined height) the
terrain height used is 0. -/
theorem c4_placement_height (env : SyncEnv) (st : GeomState) (p : SyncPayload)
    (hpe : p.error = none) (hpg : p.glbPath.isNone = false)
    (hglb : exceptIsError env.glbRead = false) :
    ((addModelFromRhino env st (some p)).2 = SyncOutcome.success ∧
      ∃ e : EntityRec,
        (addModelFromRhino env st (some p)).1.currentModel = some e ∧
        e.height = terrainHeight env + p.height ∧
        e ∈ (addModelFromRhino env st (some p)).1.viewer.entities) ∧
    ((env.terrain = none ∨ (∃ s, env.terrain = some (Except.error s)) ∨
        env.terrain = some (Except.ok none)) → terrainHeight env = 0) := by
  constructor
  · rcases hg : env.glbRead with e | b
    · rw [hg] at hglb
      simp [exceptIsError] at hglb
    · rw [addModel_eq_of_success env st p b hpe hpg hg]
      refine ⟨rfl, _, rfl, rfl, ?_⟩
      unfold placeEntity
      simp
  · intro hdeg
    unfold terrainHeight
    rcases hdeg with h | ⟨s, h⟩ | h <;> rw [h]

/-- Witness for `c4_placement_height` at a concrete payload with a throwing
terrain sample. -/
theorem c4_witness :
    (⟨none, some "x.glb", 40, -73, 5, none⟩ : SyncPayload).error = none ∧
    (⟨none, some "x.glb", 40, -73, 5, none⟩ : SyncPayload).glbPath.isNone = false ∧
    exceptIsError (⟨Except.ok 9, some (Except.error "timeout")⟩ : SyncEnv).glbRead = false ∧
    (((addModelFromRhino ⟨Except.ok 9, some (Except.error "timeout")⟩
        ⟨⟨[], true, none⟩, true, none, none, none, 0⟩
        (some ⟨none, some "x.glb", 40, -73, 5, none⟩)).2 = SyncOutcome.success ∧
      ∃ e : EntityRec,
        (addModelFromRhino ⟨Except.ok 9, some (Except.error "timeout")⟩
          ⟨⟨[], true, none⟩, true, none, none, none, 0⟩
          (some ⟨none, some "x.glb", 40, -73, 5, none⟩)).1.currentModel = some e ∧
        e.height = terrainHeight ⟨Except.ok 9, some (Except.error "timeout")⟩ + 5 ∧
        e ∈ (addModelFromRhino ⟨Except.ok 9, some (Except.error "timeout")⟩
          ⟨⟨[], true, none⟩, true, none, none, none, 0⟩
          (some ⟨none, some "x.glb", 40, -73, 5, none⟩)).1.viewer.entities) ∧
    (((⟨Except.ok 9, some (Except.error "timeout")⟩ : SyncEnv).terrain = none ∨
        (∃ s, (⟨Except.ok 9, some (Except.error "timeout")⟩ : SyncEnv).terrain =
          some (Except.error s)) ∨
        (⟨Except.ok 9, some (Except.error "timeout")⟩ : SyncEnv).terrain =
          some (Except.ok none)) →
      terrainHeight ⟨Except.ok 9, some (Except.error "timeout")⟩ = 0)) :=
  ⟨rfl, rfl, rfl,
    c4_placement_height ⟨Except.ok 9, some (Except.error "timeout")⟩
      ⟨⟨[], true, none⟩, true, none, none, none, 0⟩
      ⟨none, some "x.glb", 40, -73, 5, none⟩ rfl rfl rfl⟩

/-- `placeEntity` never touches the clipping state or the presence flags. -/
theorem placeEntity_fields (env : SyncEnv) (st : GeomState) (p : SyncPayload) :
    (placeEntity env st p).currentClipping = st.currentClipping ∧
    (placeEntity env st p).tilesetClipping = st.tilesetClipping ∧
    (placeEntity env st p).viewer.globeClipping = st.viewer.globeClipping ∧
    (placeEntity env st p).tilesetPresent = st.tilesetPresent ∧
    (placeEntity env st p).viewer.hasGlobe = st.viewer.hasGlobe := by
  unfold placeEntity
  simp

/-- When some polygons are constructible, `applyClippingPolygons` records
them as the active clipping set. -/
theorem applyClipping_currentClipping (st : GeomState) (polys : List (List ℚ))
    (h : polys.filter cesiumAccepts ≠ []) :
    (applyClippingPolygonsFn st polys).currentClipping =
      some (polys.filter cesiumAccepts) := by
  have h' : (polys.filter cesiumAccepts).isEmpty = false := by
    cases hh : polys.filter cesiumAccepts with
    | nil => exact absurd hh h
    | cons a l => rfl
  simp [applyClippingPolygonsFn, h']

/-- `removeClipping` on an active clipping state with tileset and globe
present clears all three clipping references. -/
theorem removeClipping_clears (st : GeomState) (hcs : st.currentClipping.isSome = true)
    (hts : st.tilesetPresent = true) (hgl : st.viewer.hasGlobe = true) :
    (removeClippingFn st).currentClipping = none ∧
    (removeClippingFn st).tilesetClipping = none ∧
    (removeClippingFn st).viewer.globeClipping = none := by
  unfold removeClippingFn
  rw [if_pos hcs]
  simp [hts, hgl]

/-- The clipping branch takes the apply path when non-empty polygons arrive
and a tileset is present. -/
theorem applyOrRemove_eq_apply (st : GeomState) (polys : List (List ℚ))
    (hne : polys ≠ []) (hts : st.tilesetPresent = true) :
    applyOrRemoveClipping st (some polys) = applyClippingPolygonsFn st polys := by
  have h' : polys.isEmpty = false := by
    cases polys with
    | nil => exact absurd rfl hne
    | cons a l => rfl
  simp [applyOrRemoveClipping, h', hts]

/-- C5: after a sync whose payload carried clipping polygons of which at
least one is constructible (so clipping became active), a second successful
sync whose payload has `clippingPolygons` absent or `[]` leaves the clipping
state empty: `currentClippingPolygons`, the tileset's and the globe's
clipping collections are all cleared, not left holding the previous
loops. -/
theorem c5_empty_clipping_clears_previous (env1 env2 : SyncEnv) (st : GeomState)
    (p1 p2 : SyncPayload) (polys : List (List ℚ)) (b : ℕ)
    (h1e : p1.error = none) (h1g : p1.glbPath.isNone = false)
    (h1c : p1.clippingPolygons = some polys)
    (hgood : polys.filter cesiumAccepts ≠ [])
    (hts : st.tilesetPresent = true) (hgl : st.viewer.hasGlobe = true)
    (h2e : p2.error = none) (h2g : p2.glbPath.isNone = false)
    (h2c : p2.clippingPolygons = none ∨ p2.clippingPolygons = some [])
    (h2glb : env2.glbRead = Except.ok b) :
    (addModelFromRhino env2 (addModelFromRhino env1 st (some p1)).1 (some p2)).1.currentClipping
        = none ∧
    (addModelFromRhino env2 (addModelFromRhino env1 st (some p1)).1 (some p2)).1.tilesetClipping
        = none ∧
    (addModelFromRhino env2 (addModelFromRhino env1 st (some p1)).1
        (some p2)).1.viewer.globeClipping = none ∧
    (addModelFromRhino env2 (addModelFromRhino env1 st (some p1)).1 (some p2)).2
        = SyncOutcome.success := by
  have hne : polys ≠ [] := by
    intro hnil
    rw [hnil] at hgood
    exact hgood rfl
  have htsA : (removeOldModel st).tilesetPresent = true := by
    rw [(removeOldModel_fields st).2.2.1]
    exact hts
  have hglA : (removeOldModel st).viewer.hasGlobe = true := by
    rw [(removeOldModel_fields st).2.2.2.2.1]
    exact hgl
  have happly : applyOrRemoveClipping (removeOldModel st) p1.clippingPolygons =
      applyClippingPolygonsFn (removeOldModel st) polys := by
    rw [h1c]
    exact applyOrRemove_eq_apply (removeOldModel st) polys hne htsA
  have hr1cc : (addModelFromRhino env1 st (some p1)).1.currentClipping =
      some (polys.filter cesiumAccepts) := by
    rcases hg1 : env1.glbRead with e1 | b1
    · rw [addModel_eq_of_glbError env1 st p1 e1 h1e h1g hg1]
      show (applyOrRemoveClipping (removeOldModel st) p1.clippingPolygons).currentClipping = _
      rw [happly]
      exact applyClipping_currentClipping (removeOldModel st) polys hgood
    · rw [addModel_eq_of_success env1 st p1 b1 h1e h1g hg1]
      show (placeEntity env1 (applyOrRemoveClipping (removeOldModel st) p1.clippingPolygons)
        p1).currentClipping = _
      rw [(placeEntity_fields _ _ _).1, happly]
      exact applyClipping_currentClipping (removeOldModel st) polys hgood
  have hr1ts : (addModelFromRhino env1 st (some p1)).1.tilesetPresent = true := by
    rcases hg1 : env1.glbRead with e1 | b1
    · rw [addModel_eq_of_glbError env1 st p1 e1 h1e h1g hg1]
      show (applyOrRemoveClipping (removeOldModel st) p1.clippingPolygons).tilesetPresent = _
      rw [(applyOrRemoveClipping_fields _ _).2.2.1]
      exact htsA
    · rw [addModel_eq_of_success env1 st p1 b1 h1e h1g hg1]
      show (placeEntity env1 (applyOrRemoveClipping (removeOldModel st) p1.clippingPolygons)
        p1).tilesetPresent = _
      rw [(placeEntity_fields _ _ _).2.2.2.1, (applyOrRemoveClipping_fields _ _).2.2.1]
      exact htsA
  have hr1gl : (addModelFromRhino env1 st (some p1)).1.viewer.hasGlobe = true := by
    rcases hg1 : env1.glbRead with e1 | b1
    · rw [addModel_eq_of_glbError env1 st p1 e1 h1e h1g hg1]
      show (applyOrRemoveClipping (removeOldModel st)
        p1.clippingPolygons).viewer.hasGlobe = _
      rw [(applyOrRemoveClipping_fields _ _).2.2.2.1]
      exact hglA
    · rw [addModel_eq_of_success env1 st p1 b1 h1e h1g hg1]
      show (placeEntity env1 (applyOrRemoveClipping (removeOldModel st) p1.clippingPolygons)
        p1).viewer.hasGlobe = _
      rw [(placeEntity_fields _ _ _).2.2.2.2, (applyOrRemoveClipping_fields _ _).2.2.2.1]
      exact hglA
  have hBcc : (removeOldModel (addModelFromRhino env1 st (some p1)).1).currentClipping.isSome
      = true := by
    rw [(removeOldModel_fields _).2.1, hr1cc]
    rfl
  have hBts : (removeOldModel (addModelFromRhino env1 st (some p1)).1).tilesetPresent
      = true := by
    rw [(removeOldModel_fields _).2.2.1]
    exact hr1ts
  have hBgl : (removeOldModel
      (addModelFromRhino env1 st (some p1)).1).viewer.hasGlobe = true := by
    rw [(removeOldModel_fields _).2.2.2.2.1]
    exact hr1gl
  have hrm : applyOrRemoveClipping (removeOldModel (addModelFromRhino env1 st (some p1)).1)
      p2.clippingPolygons =
      removeClippingFn (removeOldModel (addModelFromRhino env1 st (some p1)).1) := by
    rcases h2c with h | h <;> rw [h] <;> rfl
  have hclear := removeClipping_clears _ hBcc hBts hBgl
  rw [addModel_eq_of_success env2 (addModelFromRhino env1 st (some p1)).1 p2 b h2e h2g h2glb]
  refine ⟨?_, ?_, ?_, rfl⟩
  · show (placeEntity env2 (applyOrRemoveClipping
      (removeOldModel (addModelFromRhino env1 st (some p1)).1) p2.clippingPolygons)
      p2).currentClipping = none
    rw [(placeEntity_fields _ _ _).1, hrm]
    exact hclear.1
  · show (placeEntity env2 (applyOrRemoveClipping
      (removeOldModel (addModelFromRhino env1 st (some p1)).1) p2.clippingPolygons)
      p2).tilesetClipping = none
    rw [(placeEntity_fields _ _ _).2.1, hrm]
    exact hclear.2.1
  · show (placeEntity env2 (applyOrRemoveClipping
      (removeOldModel (addModelFromRhino env1 st (some p1)).1) p2.clippingPolygons)
      p2).viewer.globeClipping = none
    rw [(placeEntity_fields _ _ _).2.2.1, hrm]
    exact hclear.2.2

/-- Witness for `c5_empty_clipping_clears_previous` at a concrete pair of
syncs: the first applies one triangle loop, the second sends no clipping. -/
theorem c5_witness :
    ((⟨none, some "x.glb", 0, 0, 0, some [[0, 0, 1, 0, 0, 1]]⟩ : SyncPayload).error = none ∧
      ([[0, 0, 1, 0, 0, 1]] : List (List ℚ)).filter cesiumAccepts ≠ [] ∧
      (⟨none, some "x.glb", 0, 0, 0, none⟩ : SyncPayload).clippingPolygons = none ∧
      (⟨Except.ok 1, none⟩ : SyncEnv).glbRead = Except.ok 1) ∧
    ((addModelFromRhino ⟨Except.ok 1, none⟩
        (addModelFromRhino ⟨Except.ok 1, none⟩ ⟨⟨[], true, none⟩, true, none, none, none, 0⟩
          (some ⟨none, some "x.glb", 0, 0, 0, some [[0, 0, 1, 0, 0, 1]]⟩)).1
        (some ⟨none, some "x.glb", 0, 0, 0, none⟩)).1.currentClipping = none ∧
      (addModelFromRhino ⟨Except.ok 1, none⟩
        (addModelFromRhino ⟨Except.ok 1, none⟩ ⟨⟨[], true, none⟩, true, none, none, none, 0⟩
          (some ⟨none, some "x.glb", 0, 0, 0, some [[0, 0, 1, 0, 0, 1]]⟩)).1
        (some ⟨none, some "x.glb", 0, 0, 0, none⟩)).1.tilesetClipping = none ∧
      (addModelFromRhino ⟨Except.ok 1, none⟩
        (addModelFromRhino ⟨Except.ok 1, none⟩ ⟨⟨[], true, none⟩, true, none, none, none, 0⟩
          (some ⟨none, some "x.glb", 0, 0, 0, some [[0, 0, 1, 0, 0, 1]]⟩)).1
        (some ⟨none, some "x.glb", 0, 0, 0, none⟩)).1.viewer.globeClipping = none ∧
      (addModelFromRhino ⟨Except.ok 1, none⟩
        (addModelFromRhino ⟨Except.ok 1, none⟩ ⟨⟨[], true, none⟩, true, none, none, none, 0⟩
          (some ⟨none, some "x.glb", 0, 0, 0, some [[0, 0, 1, 0, 0, 1]]⟩)).1
        (some ⟨none, some "x.glb", 0, 0, 0, none⟩)).2 = SyncOutcome.success) :=
  ⟨⟨rfl, by decide, rfl, rfl⟩,
    c5_empty_clipping_clears_previous ⟨Except.ok 1, none⟩ ⟨Except.ok 1, none⟩
      ⟨⟨[], true, none⟩, true, none, none, none, 0⟩
      ⟨none, some "x.glb", 0, 0, 0, some [[0, 0, 1, 0, 0, 1]]⟩
      ⟨none, some "x.glb", 0, 0, 0, none⟩
      [[0, 0, 1, 0, 0, 1]] 1 rfl rfl rfl (by decide) rfl rfl rfl rfl (Or.inl rfl) rfl⟩

/-- Unfolding lemma for `GetGeometryJsonInternal` applied to a present
document. -/
theorem GetGeometryJsonInternal_some (d : RhinoDocM) :
    GetGeometryJsonInternal (some d) =
      (if !d.massingLayerFound then GeomResult.err "Layer cesium_massing not found"
       else if d.massingObjCount = 0 then GeomResult.err "No objects on cesium_massing"
       else if !d.anchorSet then
         GeomResult.err "EarthAnchorPoint not set. Please import a map first."
       else if !(d.exportOk && d.glbFileExists) then GeomResult.err "Export command failed"
       else GeomResult.payload
         { glbPath := "mcatlas_massing.glb", lat := (d.modelToEarth (0, 0, 0)).2,
           lon := (d.modelToEarth (0, 0, 0)).1, height := 0,
           clippingPolygons := getClippingPolygonsOf d }) := rfl

/-- C6: when the document has no `EarthAnchorPoint` configured, the geometry
export returns an error JSON and never a payload — the transform is not
silently defaulted to (0, 0). -/
theorem c6_no_anchor_errors (d : RhinoDocM) (h : d.anchorSet = false) :
    (∃ msg, GetGeometryJsonInternal (some d) = GeomResult.err msg) ∧
    ∀ w, GetGeometryJsonInternal (some d) ≠ GeomResult.payload w := by
  have hm : ∃ msg, GetGeometryJsonInternal (some d) = GeomResult.err msg := by
    cases h1 : d.massingLayerFound
    · exact ⟨"Layer cesium_massing not found",
        by rw [GetGeometryJsonInternal_some d, h1]; rfl⟩
    · by_cases h2 : d.massingObjCount = 0
      · exact ⟨"No objects on cesium_massing",
          by rw [GetGeometryJsonInternal_some d, h1]; simp [h2]⟩
      · exact ⟨"EarthAnchorPoint not set. Please import a map first.",
          by rw [GetGeometryJsonInternal_some d, h1]; simp [h2, h]⟩
  obtain ⟨msg, hmsg⟩ := hm
  refine ⟨⟨msg, hmsg⟩, ?_⟩
  intro w hw
  rw [hmsg] at hw
  exact GeomResult.noConfusion hw

/-- Witness for `c6_no_anchor_errors` at a concrete document with objects
present but no anchor. -/
theorem c6_witness :
    (⟨true, 2, false, false, [], fun _ => (0, 0), true, true⟩ : RhinoDocM).anchorSet
        = false ∧
    ((∃ msg, GetGeometryJsonInternal
        (some ⟨true, 2, false, false, [], fun _ => (0, 0), true, true⟩) =
          GeomResult.err msg) ∧
      ∀ w, GetGeometryJsonInternal
        (some ⟨true, 2, false, false, [], fun _ => (0, 0), true, true⟩) ≠
          GeomResult.payload w) :=
  ⟨rfl, c6_no_anchor_errors ⟨true, 2, false, false, [], fun _ => (0, 0), true, true⟩ rfl⟩

/-- C10: every successful geometry export carries `position.height = 0`
(the origin is exported at ground level), and consequently the viewer-side
placement height for such a payload is exactly the sampled terrain height
plus 0. -/
theorem c10_export_height_zero (d : RhinoDocM) (w : WirePayload)
    (h : GetGeometryJsonInternal (some d) = GeomResult.payload w)
    (env : SyncEnv) (st : GeomState) (b : ℕ) (hglb : env.glbRead = Except.ok b) :
    w.height = 0 ∧
    (addModelFromRhino env st (some (toSyncPayload w))).2 = SyncOutcome.success ∧
    ∃ e : EntityRec,
      (addModelFromRhino env st (some (toSyncPayload w))).1.currentModel = some e ∧
      e.height = terrainHeight env := by
  have hh : w.height = 0 := by
    rw [GetGeometryJsonInternal_some d] at h
    split at h
    · exact GeomResult.noConfusion h
    · split at h
      · exact GeomResult.noConfusion h
      · split at h
        · exact GeomResult.noConfusion h
        · split at h
          · exact GeomResult.noConfusion h
          · rw [← GeomResult.payload.inj h]
  refine ⟨hh, ?_⟩
  rw [addModel_eq_of_success env st (toSyncPayload w) b rfl rfl hglb]
  refine ⟨rfl, _, rfl, ?_⟩
  show terrainHeight env + (toSyncPayload w).height = terrainHeight env
  rw [show (toSyncPayload w).height = w.height from rfl, hh, add_zero]

/-- Witness for `c10_export_height_zero` at a concrete document whose export
succeeds and a viewer with an unavailable terrain source. -/
theorem c10_witness :
    GetGeometryJsonInternal
        (some ⟨true, 2, true, false, [], fun _ => (7, 8), true, true⟩) =
      GeomResult.payload ⟨"mcatlas_massing.glb", 8, 7, 0, []⟩ ∧
    (⟨Except.ok 3, none⟩ : SyncEnv).glbRead = Except.ok 3 ∧
    ((⟨"mcatlas_massing.glb", 8, 7, 0, []⟩ : WirePayload).height = 0 ∧
      (addModelFromRhino ⟨Except.ok 3, none⟩ ⟨⟨[], true, none⟩, true, none, none, none, 0⟩
        (some (toSyncPayload ⟨"mcatlas_massing.glb", 8, 7, 0, []⟩))).2 =
          SyncOutcome.success ∧
      ∃ e : EntityRec,
        (addModelFromRhino ⟨Except.ok 3, none⟩ ⟨⟨[], true, none⟩, true, none, none, none, 0⟩
          (some (toSyncPayload ⟨"mcatlas_massing.glb", 8, 7, 0, []⟩))).1.currentModel =
            some e ∧
        e.height = terrainHeight ⟨Except.ok 3, none⟩) := by
  have hpay : GetGeometryJsonInternal
      (some ⟨true, 2, true, false, [], fun _ => (7, 8), true, true⟩) =
      GeomResult.payload ⟨"mcatlas_massing.glb", 8, 7, 0, []⟩ := rfl
  exact ⟨hpay, rfl,
    c10_export_height_zero ⟨true, 2, true, false, [], fun _ => (7, 8), true, true⟩
      ⟨"mcatlas_massing.glb", 8, 7, 0, []⟩ hpay ⟨Except.ok 3, none⟩
      ⟨⟨[], true, none⟩, true, none, none, none, 0⟩ 3 rfl⟩

/-- `consecDistinct` is the Boolean form of chain-distinctness. -/
theorem consecDistinct_iff_chain (l : List Pt) :
    consecDistinct l = true ↔ List.Chain' (fun a b => a ≠ b) l := by
  induction l with
  | nil => simp [consecDistinct]
  | cons a t ih =>
    cases t with
    | nil => simp [consecDistinct]
    | cons b r =>
      rw [consecDistinct, List.chain'_cons, Bool.and_eq_true, bne_iff_ne]
      exact and_congr Iff.rfl ih

/-- The flat `[lon, lat, ...]` encoding of a vertex list has twice its
length. -/
theorem length_flatMap_pair (tf : Pt → ℚ × ℚ) (verts : List Pt) :
    (verts.flatMap (fun q => [(tf q).1, (tf q).2])).length = 2 * verts.length := by
  induction verts with
  | nil => rfl
  | cons a l ih =>
    rw [List.flatMap_cons, List.length_append, ih, List.length_cons]
    simp only [List.length_cons, List.length_nil]
    omega

/-- Adjacent entries of a chain-distinct list differ (stated on
`getElem?`). -/
theorem chain_getElem?_ne (l : List Pt) (hch : List.Chain' (fun a b => a ≠ b) l)
    (i : ℕ) (h : i + 1 < l.length) : l[i]? ≠ l[i + 1]? := by
  rw [List.getElem?_eq_getElem (by omega), List.getElem?_eq_getElem h]
  intro hsome
  have heq := Option.some.inj hsome
  have h5 := List.chain'_iff_get.mp hch i (by omega)
  apply h5
  simp only [List.get_eq_getElem]
  exact heq

/-- Dropping the closing duplicate of a closed polyline with no zero-length
segment leaves a loop whose last vertex differs from its first. -/
theorem dropLast_getLast?_ne_head? (l : List Pt)
    (hch : List.Chain' (fun a b => a ≠ b) l)
    (hclosed : l.head? = l.getLast?) (hlen : 3 ≤ l.dropLast.length) :
    l.dropLast.getLast? ≠ l.dropLast.head? := by
  have hl4 : 4 ≤ l.length := by
    rw [List.length_dropLast] at hlen
    omega
  have h1 : l.dropLast.getLast? = l[l.length - 2]? := by
    rw [List.getLast?_eq_getElem?, List.getElem?_dropLast, List.length_dropLast]
    rw [if_pos (by omega), Nat.sub_sub]
  have h2 : l.dropLast.head? = l[0]? := by
    rw [List.head?_eq_getElem?, List.getElem?_dropLast]
    rw [if_pos (by omega)]
  have h6 : l[0]? = l[l.length - 1]? := by
    rw [← List.head?_eq_getElem?, ← List.getLast?_eq_getElem?]
    exact hclosed
  have h5 := chain_getElem?_ne l hch (l.length - 2) (by omega)
  have hidx : l.length - 2 + 1 = l.length - 1 := by omega
  rw [hidx] at h5
  rw [h1, h2]
  intro heq
  exact h5 (heq.trans h6)

/-- Specification of one clip object's processing: any emitted vertex loop
has at least three vertices and, when the source polyline has no zero-length
segment, does not end with its first vertex. -/
theorem processClipObject_spec (o : ClipObj) (verts : List Pt)
    (hval : objValid o = true) (h : processClipObject o = some verts) :
    3 ≤ verts.length ∧ verts.getLast? ≠ verts.head? := by
  obtain ⟨cur⟩ := o
  rcases cur with _ | c
  · simp [processClipObject] at h
  · simp only [processClipObject] at h
    cases hclb : c.closed with
    | false =>
      rw [hclb] at h
      simp at h
    | true =>
      rw [hclb] at h
      rcases hp : getPolyline c with _ | l
      · rw [hp] at h
        simp at h
      · rw [hp] at h
        simp only [Bool.not_true, Bool.false_eq_true, if_false] at h
        have hch : List.Chain' (fun a b => a ≠ b) l := by
          have hv : consecDistinct l = true := by
            simp only [objValid] at hval
            rw [hp] at hval
            exact hval
          exact (consecDistinct_iff_chain l).mp hv
        by_cases hlen : l.length < 3
        · simp [hlen] at h
        · simp only [hlen, if_false] at h
          by_cases hpc : plineClosed l = true
          · simp only [hpc, if_true] at h
            by_cases h3 : 3 ≤ l.dropLast.length
            · simp only [h3, if_true, Option.some.injEq] at h
              subst h
              have hcl : l.head? = l.getLast? := by
                unfold plineClosed at hpc
                exact of_decide_eq_true hpc
              exact ⟨h3, dropLast_getLast?_ne_head? l hch hcl h3⟩
            · rw [List.length_dropLast] at h3
              simp [h3] at h
          · simp only [Bool.not_eq_true] at hpc
            simp only [hpc, Bool.false_eq_true, if_false] at h
            by_cases h3 : 3 ≤ l.length
            · simp only [h3, if_true, Option.some.injEq] at h
              subst h
              have hne : ¬(l.head? = l.getLast?) := by
                intro hcontra
                have : plineClosed l = true := decide_eq_true hcontra
                rw [hpc] at this
                exact Bool.noConfusion this
              exact ⟨h3, fun e => hne e.symm⟩
            · simp [h3] at h

/-- C8 counterexample: the unrestricted claim — every emitted loop's
(lon, lat) pairs never repeat the first vertex as a closing duplicate —
fails on the code in two concrete ways.

1. A closed polyline with a doubled closing vertex
   `[A, B, C, A, A]`: `GetClippingPolygonsJson` drops only one copy, so the
   emitted flat loop is `[0,0, 1,0, 0,1, 0,0]`, whose last (lon, lat) pair
   equals its first (the `take 2 = drop 6` conjunct).
2. Even a polyline with no zero-length segment (`objValid` holds): a closed
   loop in a vertical plane `[(0,0,0), (1,0,0), (1,0,1), (0,0,1), (0,0,0)]`
   under the Z-dropping (lon, lat) projection emits
   `[0,0, 1,0, 1,0, 0,0]` — distinct 3D endpoints collapse to the same
   pair, so the loop again ends with a repeat of its first pair. -/
theorem c8_counterexample :
    (getClippingPolygonsFlat (fun q => (q.1, q.2.1))
        [⟨some ⟨true, some [(0, 0, 0), (1, 0, 0), (0, 1, 0), (0, 0, 0), (0, 0, 0)], none⟩⟩] =
      [[0, 0, 1, 0, 0, 1, 0, 0]] ∧
      ([0, 0, 1, 0, 0, 1, 0, 0] : List ℚ).take 2 =
        ([0, 0, 1, 0, 0, 1, 0, 0] : List ℚ).drop 6) ∧
    ((∀ ob ∈ [(⟨some ⟨true,
          some [(0, 0, 0), (1, 0, 0), (1, 0, 1), (0, 0, 1), (0, 0, 0)], none⟩⟩ : ClipObj)],
        objValid ob = true) ∧
      getClippingPolygonsFlat (fun q => (q.1, q.2.1))
        [⟨some ⟨true, some [(0, 0, 0), (1, 0, 0), (1, 0, 1), (0, 0, 1), (0, 0, 0)], none⟩⟩] =
      [[0, 0, 1, 0, 1, 0, 0, 0]] ∧
      ([0, 0, 1, 0, 1, 0, 0, 0] : List ℚ).take 2 =
        ([0, 0, 1, 0, 1, 0, 0, 0] : List ℚ).drop 6) := by
  refine ⟨⟨by decide, by decide⟩, by decide, by decide, by decide⟩

/-- C8 amended: every emitted loop has at least 3 (lon, lat) vertex pairs
and is the flat encoding of the extracted polyline with the single
discretization-produced closing duplicate dropped; provided every extracted
polyline has no zero-length segment, that emitted model-space vertex list
does not end with its first vertex (the emitted (lon, lat) pairs can still
coincide when the projection collapses distinct vertices, and a doubled
closing vertex is only dropped once — see the counterexample); and an
object that is skipped (open, degenerate, or not reducible to a closed
curve) contributes nothing and does not disturb the loops of the remaining
objects. -/
theorem c8_clipping_loops (tf : Pt → ℚ × ℚ) (objs l₁ l₂ : List ClipObj) (o : ClipObj)
    (hval : ∀ ob ∈ objs, objValid ob = true)
    (hsplit : objs = l₁ ++ o :: l₂) (hskip : processClipObject o = none) :
    (∀ loop ∈ getClippingPolygonsFlat tf objs,
      ∃ verts : List Pt,
        loop = verts.flatMap (fun q => [(tf q).1, (tf q).2]) ∧
        loop.length = 2 * verts.length ∧
        3 ≤ verts.length ∧ verts.getLast? ≠ verts.head?) ∧
    getClippingPolygonsFlat tf objs = getClippingPolygonsFlat tf (l₁ ++ l₂) := by
  constructor
  · intro loop hloop
    unfold getClippingPolygonsFlat at hloop
    rw [List.mem_map] at hloop
    obtain ⟨verts, hverts, hloopEq⟩ := hloop
    rw [List.mem_filterMap] at hverts
    obtain ⟨ob, hob, hproc⟩ := hverts
    obtain ⟨hlen, hne⟩ := processClipObject_spec ob verts (hval ob hob) hproc
    exact ⟨verts, hloopEq.symm, by rw [← hloopEq, length_flatMap_pair], hlen, hne⟩
  · rw [hsplit]
    unfold getClippingPolygonsFlat
    rw [List.filterMap_append, List.filterMap_append, List.filterMap_cons, hskip]

/-- Witness for `c8_clipping_loops`: one non-curve object (skipped) followed
by a closed triangle polyline carrying a duplicate closing vertex. -/
theorem c8_witness :
    (∀ ob ∈ [(⟨none⟩ : ClipObj),
        ⟨some ⟨true, some [(0, 0, 0), (1, 0, 0), (0, 1, 0), (0, 0, 0)], none⟩⟩],
      objValid ob = true) ∧
    processClipObject (⟨none⟩ : ClipObj) = none ∧
    ((∀ loop ∈ getClippingPolygonsFlat (fun q => (q.1, q.2.1))
        [(⟨none⟩ : ClipObj),
          ⟨some ⟨true, some [(0, 0, 0), (1, 0, 0), (0, 1, 0), (0, 0, 0)], none⟩⟩],
      ∃ verts : List Pt,
        loop = verts.flatMap (fun q =>
          [((fun q => (q.1, q.2.1) : Pt → ℚ × ℚ) q).1,
            ((fun q => (q.1, q.2.1) : Pt → ℚ × ℚ) q).2]) ∧
        loop.length = 2 * verts.length ∧
        3 ≤ verts.length ∧ verts.getLast? ≠ verts.head?) ∧
    getClippingPolygonsFlat (fun q => (q.1, q.2.1))
        [(⟨none⟩ : ClipObj),
          ⟨some ⟨true, some [(0, 0, 0), (1, 0, 0), (0, 1, 0), (0, 0, 0)], none⟩⟩] =
      getClippingPolygonsFlat (fun q => (q.1, q.2.1))
        ([] ++ [⟨some ⟨true, some [(0, 0, 0), (1, 0, 0), (0, 1, 0), (0, 0, 0)], none⟩⟩])) :=
  ⟨by decide, rfl,
    c8_clipping_loops (fun q => (q.1, q.2.1))
      [⟨none⟩, ⟨some ⟨true, some [(0, 0, 0), (1, 0, 0), (0, 1, 0), (0, 0, 0)], none⟩⟩]
      [] [⟨some ⟨true, some [(0, 0, 0), (1, 0, 0), (0, 1, 0), (0, 0, 0)], none⟩⟩]
      ⟨none⟩ (by decide) rfl rfl⟩

end McAtlas
